import Mathlib

/-!
Shallow embedding of the symptom-normalization and disease-matching engine of
the diagnowise repository (SymptomAgent/tools.py and SymptomAgent/crew.py).

External effects are made explicit:
 - the rapidfuzz scorer is a parameter `score : String → String → Rat`
   (scores on the 0..100 scale); `extractOne` models
   rapidfuzz.process.extractOne, which returns the first best-scoring choice
   and returns None on an empty choice list;
 - the ClinicalBERT embedding service is a `BertEnv`: `emb` may fail (the
   Python call raises), `cos` is the cosine similarity of two embeddings;
 - the Neo4j store is a function returning `Except` so that connectivity
   failures are represented; the Cypher query text of
   get_diseases_from_neo4j is modelled by `cypher_disease_query` over a
   graph given as a list of (disease name, symptom-name list) pairs;
 - a Python exception is an `Except.error` carrying the message; the caught
   print-and-recover paths return the logged message alongside the value.
-/

namespace SymptomAgent

/-- Python str.lower (ASCII case folding), as a structurally recursive map
over the character list so that terms reduce. -/
def pyLower (s : String) : String := String.mk (s.data.map Char.toLower)

/-- Python str.strip: drop whitespace from both ends of the string. -/
def pyStrip (s : String) : String :=
  String.mk (((s.data.dropWhile Char.isWhitespace).reverse.dropWhile Char.isWhitespace).reverse)

/-- The static alias table SYMPTOM_MAP of tools.py (rule-based corrections). -/
def SYMPTOM_MAP : List (String × String) :=
  [("fvr", "fever"),
   ("htn", "hypertension"),
   ("vommiting", "vomiting"),
   ("abd pain", "abdominal pain"),
   ("c/o cp", "chest pain"),
   ("sorethroat", "sore throat"),
   ("haedache", "headache"),
   ("sob", "shortness of breath"),
   ("loosemotions", "diarrhea")]

/-- Embedding service environment: `emb` models get_clinicalbert_embedding
(which may raise, hence Except), `cos` models torch cosine_similarity on the
resulting vectors (type `a` stands for the vector type). -/
structure BertEnv (a : Type) where
  emb : String → Except String a
  cos : a → a → Rat

/-- Fold of rapidfuzz extractOne over the remaining choices: keeps the
first choice attaining the maximum score (updates only on strictly greater). -/
def extractBest (score : String → String → Rat) (query : String) :
    List String → String × Rat → String × Rat
  | [], best => best
  | c :: cs, best =>
    if score query c > best.2 then extractBest score query cs (c, score query c)
    else extractBest score query cs best

/-- rapidfuzz process.extractOne: none on an empty choice list, otherwise the
first best-scoring choice with its score. -/
def extractOne (score : String → String → Rat) (query : String) :
    List String → Option (String × Rat)
  | [] => none
  | c :: cs => some (extractBest score query cs (c, score query c))

/-- The Python error raised by `match, score, _ = process.extractOne(...)`
when extractOne returns None (empty choice list). -/
def fuzzyUnpackMsg : String := "TypeError: cannot unpack non-iterable NoneType object"

/-- fuzzy_match of tools.py: unpacks extractOne (raising on None), then
returns the match only when its score strictly exceeds the threshold. -/
def fuzzy_match (score : String → String → Rat) (symptom : String)
    (all_symptoms : List String) (threshold : Rat) : Except String (Option String) :=
  match extractOne score symptom all_symptoms with
  | none => .error fuzzyUnpackMsg
  | some (m, sc) => .ok (if sc > threshold then some m else none)

/-- The loop of get_closest_symptom_with_bert: embeds each candidate
(lower-cased) and keeps the first candidate of strictly maximal similarity;
an embedding failure propagates. The accumulator is (best_match, max_sim). -/
def bertLoop {a : Type} (benv : BertEnv a) (user_vec : a) :
    List String → Option String × Rat → Except String (Option String × Rat)
  | [], acc => .ok acc
  | sname :: rest, acc =>
    match benv.emb (pyLower sname) with
    | .error e => .error e
    | .ok s_vec =>
      if benv.cos user_vec s_vec > acc.2 then
        bertLoop benv user_vec rest (some sname, benv.cos user_vec s_vec)
      else
        bertLoop benv user_vec rest acc

/-- get_closest_symptom_with_bert of tools.py: embeds the lower-cased input
and scans the vocabulary, starting from best_match = None, max_sim = -1. -/
def get_closest_symptom_with_bert {a : Type} (benv : BertEnv a) (symptom : String)
    (all_symptoms : List String) : Except String (Option String × Rat) :=
  match benv.emb (pyLower symptom) with
  | .error e => .error e
  | .ok user_vec => bertLoop benv user_vec all_symptoms (none, -1)

/-- Layer 4 of normalize_symptom: semantic match, accepted only when the best
cosine similarity strictly exceeds 0.85. -/
def semantic_layer {a : Type} (benv : BertEnv a) (s : String)
    (all_symptoms : List String) : Except String (Option String) :=
  match get_closest_symptom_with_bert benv s all_symptoms with
  | .error e => .error e
  | .ok (semantic, sc) => .ok (if sc > mkRat 85 100 then semantic else none)

/-- normalize_symptom of tools.py, layered: alias lookup on the lower-cased,
trimmed input; case-insensitive exact match (returning the lowered input);
fuzzy match (Python truthiness: an empty-string match falls through);
semantic match. -/
def normalize_symptom {a : Type} (score : String → String → Rat) (benv : BertEnv a)
    (symptom : String) (all_symptoms : List String) : Except String (Option String) :=
  let s := pyStrip (pyLower symptom)
  match List.lookup s SYMPTOM_MAP with
  | some v => .ok (some v)
  | none =>
    if s ∈ all_symptoms.map pyLower then
      .ok (some s)
    else
      match fuzzy_match score s all_symptoms 80 with
      | .error e => .error e
      | .ok (some f) => if f = "" then semantic_layer benv s all_symptoms else .ok (some f)
      | .ok none => semantic_layer benv s all_symptoms

/-- One row of the disease-match query result (a record of
get_diseases_from_neo4j). -/
structure MatchRecord where
  disease : String
  matched_symptoms : List String
  match_count : Nat
  deriving DecidableEq, Repr

/-- The symptom names of one disease that match the (already lower-cased)
query list: WHERE toLower(s.name) IN symptom_list. -/
def matchedOf (symptom_list : List String) (syms : List String) : List String :=
  syms.filter (fun s => pyLower s ∈ symptom_list)

/-- Descending order on match_count, the ORDER BY match_count DESC key. -/
def rdesc (x y : MatchRecord) : Prop := y.match_count ≤ x.match_count

instance : DecidableRel rdesc := fun x y => Nat.decLe y.match_count x.match_count

instance : IsTotal MatchRecord rdesc := ⟨fun x y => Nat.le_total y.match_count x.match_count⟩

instance : IsTrans MatchRecord rdesc := ⟨fun _ _ _ h1 h2 => Nat.le_trans h2 h1⟩

/-- The Cypher query of get_diseases_from_neo4j over a graph given as
(disease name, adjacent symptom names) pairs: group the matching
HAS_SYMPTOM edges per disease (diseases with no matching edge produce no
row), count(*) counts the collected edges, order by match_count descending,
truncate to top_n. -/
def cypher_disease_query (g : List (String × List String)) (symptom_list : List String)
    (top_n : Nat) : List MatchRecord :=
  let rows := g.map (fun d =>
    MatchRecord.mk d.1 (matchedOf symptom_list d.2) (matchedOf symptom_list d.2).length)
  let grouped := rows.filter (fun r => !r.matched_symptoms.isEmpty)
  (List.insertionSort rdesc grouped).take top_n

/-- A working store, running the Cypher query against graph `g`. -/
def neo4jStore (g : List (String × List String)) :
    List String → Nat → Except String (List MatchRecord) :=
  fun symptom_list top_n => .ok (cypher_disease_query g symptom_list top_n)

/-- A store whose session.run raises with message `e`. -/
def failingStore (e : String) : List String → Nat → Except String (List MatchRecord) :=
  fun _ _ => .error e

/-- get_diseases_from_neo4j of tools.py: lower-cases and strips the query
symptoms, runs the store; on an exception, prints the logged message and
returns []. The second component is the logged error line, if any. -/
def get_diseases_from_neo4j (store : List String → Nat → Except String (List MatchRecord))
    (user_symptoms : List String) (top_n : Nat) : List MatchRecord × Option String :=
  match store (user_symptoms.map (fun s => pyStrip (pyLower s))) top_n with
  | .ok recs => (recs, none)
  | .error e => ([], some ("Error querying Neo4j: " ++ e))

/-- get_all_symptoms_from_neo4j of tools.py: returns the fetched vocabulary,
or catches the store exception, logs it, and returns []. -/
def get_all_symptoms_from_neo4j (fetch : Except String (List String)) :
    List String × Option String :=
  match fetch with
  | .ok syms => (syms, none)
  | .error e => ([], some ("Error retrieving symptoms: " ++ e))

/-- Outcome of one run of main in SymptomAgent/crew.py (prints abstracted to
constructors; the final crew kickoff is external and out of scope, so a
completed run carries what main passes to it). -/
inductive SessionOutcome where
  | errNoApiKey : SessionOutcome
  | errNoSymptoms : SessionOutcome
  | errNoInput : SessionOutcome
  | errNoValidSymptoms (invalid : List String) : SessionOutcome
  | completed (valid invalid : List String) (found : List MatchRecord) : SessionOutcome
  | errCaught (msg : String) : SessionOutcome
  deriving DecidableEq, Repr

/-- The normalization loop of main: for each token, a truthy normalization
result goes to the valid list, otherwise the raw token goes to the invalid
list; an exception in normalize_symptom propagates. -/
def classify_tokens {a : Type} (score : String → String → Rat) (benv : BertEnv a)
    (vocab : List String) : List String → Except String (List String × List String)
  | [] => .ok ([], [])
  | t :: ts =>
    match normalize_symptom score benv t vocab with
    | .error e => .error e
    | .ok r =>
      match classify_tokens score benv vocab ts with
      | .error e => .error e
      | .ok (vs, ivs) =>
        match r with
        | some v => if v = "" then .ok (vs, t :: ivs) else .ok (v :: vs, ivs)
        | none => .ok (vs, t :: ivs)

/-- The body of main inside its try block, after the api-key check: fetch the
vocabulary (empty means abort), read and split the user input, normalize each
token, and query the disease matches with top_n = 5. -/
def session_body {a : Type} (symFetch : Except String (List String))
    (score : String → String → Rat) (benv : BertEnv a)
    (dstore : List String → Nat → Except String (List MatchRecord))
    (userInput : String) : Except String SessionOutcome :=
  let all_symptoms := (get_all_symptoms_from_neo4j symFetch).1
  if all_symptoms = [] then .ok .errNoSymptoms
  else
    let user_in := pyStrip userInput
    if user_in = "" then .ok .errNoInput
    else
      let user_symptoms := ((user_in.splitOn ",").map pyStrip).filter (fun t => t ≠ "")
      match classify_tokens score benv all_symptoms user_symptoms with
      | .error e => .error e
      | .ok (valid, invalid) =>
        if valid = [] then .ok (.errNoValidSymptoms invalid)
        else .ok (.completed valid invalid (get_diseases_from_neo4j dstore valid 5).1)

/-- main of SymptomAgent/crew.py: missing or empty OPENAI_API_KEY aborts
before anything else; any exception escaping the body is caught by the
top-level handler (an error print), modelled by errCaught. -/
def run_main {a : Type} (apiKey : Option String) (symFetch : Except String (List String))
    (score : String → String → Rat) (benv : BertEnv a)
    (dstore : List String → Nat → Except String (List MatchRecord))
    (userInput : String) : SessionOutcome :=
  if apiKey.getD "" = "" then .errNoApiKey
  else
    match session_body symFetch score benv dstore userInput with
    | .ok o => o
    | .error e => .errCaught e

/-- A concrete fuzzy scorer giving every pair score 0 (all below threshold). -/
def score0 : String → String → Rat := fun _ _ => 0

/-- A concrete embedding environment that always succeeds and gives cosine
similarity 0 (below threshold). -/
def benvTriv : BertEnv Unit where
  emb := fun _ => .ok ()
  cos := fun _ _ => 0

/-- A concrete embedding environment whose embedding call always raises. -/
def benvFail : BertEnv Unit where
  emb := fun _ => .error "embedding service down"
  cos := fun _ _ => 0

/-- A concrete two-disease graph: Flu has fever and cough, Cold has cough. -/
def gFlu : List (String × List String) := [("Flu", ["fever", "cough"]), ("Cold", ["cough"])]

/-- The Flu record produced by the disease query on gFlu for fever and cough. -/
def rFlu : MatchRecord := MatchRecord.mk "Flu" ["fever", "cough"] 2

/-- The running best kept by extractBest stays below any bound dominating the
initial accumulator and every remaining choice score. -/
theorem extractBest_le (score : String → String → Rat) (q : String) (c : Rat) :
    ∀ (l : List String) (best : String × Rat), best.2 ≤ c →
      (∀ x ∈ l, score q x ≤ c) → (extractBest score q l best).2 ≤ c
  | [], _, hb, _ => hb
  | x :: xs, best, hb, h => by
    unfold extractBest
    by_cases hx : score q x > best.2
    · rw [if_pos hx]
      exact extractBest_le score q c xs _ (h x (List.mem_cons_self x xs))
        fun y hy => h y (List.mem_cons_of_mem x hy)
    · rw [if_neg hx]
      exact extractBest_le score q c xs best hb fun y hy => h y (List.mem_cons_of_mem x hy)

/-- When every vocabulary entry scores at most the threshold, fuzzy_match
returns None (no exception: the vocabulary is non-empty). -/
theorem fuzzy_match_none (score : String → String → Rat) (q : String)
    (l : List String) (hne : l ≠ []) (h : ∀ x ∈ l, score q x ≤ 80) :
    fuzzy_match score q l 80 = .ok none := by
  match l, hne with
  | x :: xs, _ =>
    have hb : (extractBest score q xs (x, score q x)).2 ≤ 80 :=
      extractBest_le score q 80 xs (x, score q x) (h x (List.mem_cons_self x xs))
        (fun y hy => h y (List.mem_cons_of_mem x hy))
    simp only [fuzzy_match, extractOne]
    rw [if_neg (not_lt.mpr hb)]

/-- The scan of bertLoop succeeds and its final maximal similarity stays below
any bound dominating the accumulator when every remaining entry embeds
successfully with similarity below that bound. -/
theorem bertLoop_le {a : Type} (benv : BertEnv a) (u : a) (c : Rat) :
    ∀ (l : List String) (acc : Option String × Rat), acc.2 ≤ c →
      (∀ v ∈ l, ∃ w, benv.emb (pyLower v) = .ok w ∧ benv.cos u w ≤ c) →
      ∃ b m, bertLoop benv u l acc = .ok (b, m) ∧ m ≤ c
  | [], acc, hb, _ => ⟨acc.1, acc.2, rfl, hb⟩
  | s :: rest, acc, hb, h => by
    obtain ⟨w, hw, hcw⟩ := h s (List.mem_cons_self s rest)
    have hrest : ∀ v ∈ rest, ∃ w, benv.emb (pyLower v) = .ok w ∧ benv.cos u w ≤ c :=
      fun v hv => h v (List.mem_cons_of_mem s hv)
    unfold bertLoop
    simp only [hw]
    by_cases hgt : benv.cos u w > acc.2
    · rw [if_pos hgt]
      exact bertLoop_le benv u c rest (some s, benv.cos u w) hcw hrest
    · rw [if_neg hgt]
      exact bertLoop_le benv u c rest acc hb hrest

/-- When the input embeds successfully and every vocabulary entry embeds with
cosine similarity at most 0.85, the semantic layer returns None. -/
theorem semantic_layer_none {a : Type} (benv : BertEnv a) (s : String)
    (l : List String) (u : a)
    (hu : benv.emb (pyLower s) = .ok u)
    (h : ∀ v ∈ l, ∃ w, benv.emb (pyLower v) = .ok w ∧ benv.cos u w ≤ mkRat 85 100) :
    semantic_layer benv s l = .ok none := by
  obtain ⟨b, m, heq, hle⟩ :=
    bertLoop_le benv u (mkRat 85 100) l (none, -1) (by decide) h
  simp only [semantic_layer, get_closest_symptom_with_bert, hu, heq]
  rw [if_neg (not_lt.mpr hle)]

/-- Claim C1 (counterexample): the input FEVER is absent from the AliasMap
after lower-casing and trimming, and equals the vocabulary entry Fever
case-insensitively, yet normalize_symptom returns the lower-cased input
fever, not the vocabulary entry Fever: the entry's casing is not preserved. -/
theorem C1_counterexample :
    List.lookup (pyStrip (pyLower "FEVER")) SYMPTOM_MAP = none ∧
    pyStrip (pyLower "FEVER") = pyLower "Fever" ∧
    normalize_symptom score0 benvTriv "FEVER" ["Fever"] = .ok (some "fever") ∧
    "fever" ≠ "Fever" :=
  ⟨by decide, by decide, rfl, by decide⟩

/-- Claim C1 (amended): for an input absent from the AliasMap whose
lower-cased, trimmed form equals some vocabulary entry case-insensitively,
normalize_symptom returns that lower-cased, trimmed input (the entry only up
to case), not the entry with its original casing. -/
theorem C1_amended_exact_match {a : Type} (score : String → String → Rat)
    (benv : BertEnv a) (symptom : String) (all_symptoms : List String)
    (halias : List.lookup (pyStrip (pyLower symptom)) SYMPTOM_MAP = none)
    (hmem : pyStrip (pyLower symptom) ∈ all_symptoms.map pyLower) :
    normalize_symptom score benv symptom all_symptoms
      = .ok (some (pyStrip (pyLower symptom))) := by
  simp only [normalize_symptom]
  rw [halias, if_pos hmem]

/-- Claim C1 (amended, witness): the amended statement at input FEVER with
vocabulary [Fever]. -/
theorem C1_witness :
    List.lookup (pyStrip (pyLower "FEVER")) SYMPTOM_MAP = none ∧
    pyStrip (pyLower "FEVER") ∈ ["Fever"].map pyLower ∧
    normalize_symptom score0 benvTriv "FEVER" ["Fever"]
      = .ok (some (pyStrip (pyLower "FEVER"))) :=
  ⟨by decide, by decide,
    C1_amended_exact_match score0 benvTriv "FEVER" ["Fever"] (by decide) (by decide)⟩

/-- Claim C2: for every input whose lower-cased, trimmed form is an AliasMap
key, normalize_symptom returns the mapped canonical value immediately, for
every vocabulary and every scorer and embedding environment. -/
theorem C2_alias_returns_mapped {a : Type} (score : String → String → Rat)
    (benv : BertEnv a) (symptom : String) (all_symptoms : List String) (v : String)
    (halias : List.lookup (pyStrip (pyLower symptom)) SYMPTOM_MAP = some v) :
    normalize_symptom score benv symptom all_symptoms = .ok (some v) := by
  simp only [normalize_symptom]
  rw [halias]

/-- Claim C2 (witness): the AliasMap maps htn to hypertension, and
normalize_symptom on HTN returns hypertension even for a vocabulary that does
not contain it. -/
theorem C2_witness :
    List.lookup (pyStrip (pyLower "HTN")) SYMPTOM_MAP = some "hypertension" ∧
    "hypertension" ∉ ["fever"] ∧
    normalize_symptom score0 benvTriv "HTN" ["fever"] = .ok (some "hypertension") :=
  ⟨by decide, by decide,
    C2_alias_returns_mapped score0 benvTriv "HTN" ["fever"] "hypertension" (by decide)⟩

/-- Claim C3: an input with no alias hit and no case-insensitive exact match,
whose fuzzy score against every vocabulary entry is at most 80 and whose
semantic cosine similarity against every vocabulary entry is at most 0.85
(the vocabulary being non-empty and the embedding calls succeeding, so that
these similarities exist), normalizes to None without an exception. -/
theorem C3_unresolved_returns_none {a : Type} (score : String → String → Rat)
    (benv : BertEnv a) (symptom : String) (all_symptoms : List String) (u : a)
    (hne : all_symptoms ≠ [])
    (halias : List.lookup (pyStrip (pyLower symptom)) SYMPTOM_MAP = none)
    (hexact : pyStrip (pyLower symptom) ∉ all_symptoms.map pyLower)
    (hfuzzy : ∀ v ∈ all_symptoms, score (pyStrip (pyLower symptom)) v ≤ 80)
    (hemb : benv.emb (pyLower (pyStrip (pyLower symptom))) = .ok u)
    (hsem : ∀ v ∈ all_symptoms, ∃ w, benv.emb (pyLower v) = .ok w ∧
      benv.cos u w ≤ mkRat 85 100) :
    normalize_symptom score benv symptom all_symptoms = .ok none := by
  simp only [normalize_symptom]
  rw [halias, if_neg hexact,
    fuzzy_match_none score (pyStrip (pyLower symptom)) all_symptoms hne hfuzzy,
    semantic_layer_none benv (pyStrip (pyLower symptom)) all_symptoms u hemb hsem]

/-- Claim C3 (witness): the unresolved-input statement at input zzz with
vocabulary [fever], a scorer giving 0 everywhere and an embedding environment
giving cosine similarity 0 everywhere. -/
theorem C3_witness :
    (["fever"] : List String) ≠ [] ∧
    normalize_symptom score0 benvTriv "zzz" ["fever"] = .ok none :=
  ⟨by decide,
    C3_unresolved_returns_none score0 benvTriv "zzz" ["fever"] () (by decide) (by decide)
      (by decide) (by decide) rfl (fun _ _ => ⟨(), rfl, by decide⟩)⟩

/-- Claim C4: for every graph, every symptom list and every positive top_n,
the disease query returns at most top_n results, and the results are ordered
by match count descending. -/
theorem C4_bounded_and_sorted (g : List (String × List String))
    (user_symptoms : List String) (top_n : Nat) (_hpos : 0 < top_n) :
    (get_diseases_from_neo4j (neo4jStore g) user_symptoms top_n).1.length ≤ top_n ∧
    List.Sorted rdesc (get_diseases_from_neo4j (neo4jStore g) user_symptoms top_n).1 := by
  constructor
  · simp only [get_diseases_from_neo4j, neo4jStore, cypher_disease_query]
    rw [List.length_take]
    exact min_le_left _ _
  · simp only [get_diseases_from_neo4j, neo4jStore, cypher_disease_query]
    exact List.Pairwise.sublist (List.take_sublist _ _) (List.sorted_insertionSort rdesc _)

/-- Claim C4 (witness): the bound and ordering at the concrete two-disease
graph gFlu with query symptoms fever and cough and top_n 5. -/
theorem C4_witness :
    0 < 5 ∧
    ((get_diseases_from_neo4j (neo4jStore gFlu) ["fever", "cough"] 5).1.length ≤ 5 ∧
      List.Sorted rdesc (get_diseases_from_neo4j (neo4jStore gFlu) ["fever", "cough"] 5).1) :=
  ⟨by decide, C4_bounded_and_sorted gFlu ["fever", "cough"] 5 (by decide)⟩

/-- Claim C5: when the store raises with any message during the disease
query, get_diseases_from_neo4j catches it, logs the error line, and returns
the empty list instead of propagating the exception. -/
theorem C5_store_error_returns_empty (e : String) (user_symptoms : List String)
    (top_n : Nat) :
    get_diseases_from_neo4j (failingStore e) user_symptoms top_n
      = ([], some ("Error querying Neo4j: " ++ e)) := rfl

/-- Claim C6 (counterexample): with an embedding service that raises, on the
token zzz with vocabulary [fever] (no alias, exact or fuzzy hit),
normalize_symptom propagates the exception instead of returning None. -/
theorem C6_counterexample :
    benvFail.emb (pyLower (pyStrip (pyLower "zzz"))) = .error "embedding service down" ∧
    normalize_symptom score0 benvFail "zzz" ["fever"] = .error "embedding service down" ∧
    (Except.error "embedding service down" : Except String (Option String)) ≠ .ok none :=
  ⟨rfl, rfl, fun h => Except.noConfusion h⟩

/-- Claim C6 (amended): when layer 4 is reached and the embedding call on the
token fails, normalize_symptom propagates that failure to its caller (in
crew.py it is caught only by the top-level session handler); the token is not
treated as an unresolved None result. -/
theorem C6_amended_embedding_failure_propagates {a : Type}
    (score : String → String → Rat) (benv : BertEnv a) (symptom : String)
    (all_symptoms : List String) (e : String)
    (hne : all_symptoms ≠ [])
    (halias : List.lookup (pyStrip (pyLower symptom)) SYMPTOM_MAP = none)
    (hexact : pyStrip (pyLower symptom) ∉ all_symptoms.map pyLower)
    (hfuzzy : ∀ v ∈ all_symptoms, score (pyStrip (pyLower symptom)) v ≤ 80)
    (hemb : benv.emb (pyLower (pyStrip (pyLower symptom))) = .error e) :
    normalize_symptom score benv symptom all_symptoms = .error e := by
  simp only [normalize_symptom]
  rw [halias, if_neg hexact,
    fuzzy_match_none score (pyStrip (pyLower symptom)) all_symptoms hne hfuzzy]
  show semantic_layer benv (pyStrip (pyLower symptom)) all_symptoms = Except.error e
  simp only [semantic_layer, get_closest_symptom_with_bert, hemb]

/-- Claim C6 (amended, witness): the propagation statement at token qqq with
vocabulary [fever] and the always-failing embedding environment. -/
theorem C6_witness :
    benvFail.emb (pyLower (pyStrip (pyLower "qqq"))) = .error "embedding service down" ∧
    normalize_symptom score0 benvFail "qqq" ["fever"] = .error "embedding service down" :=
  ⟨rfl, C6_amended_embedding_failure_propagates score0 benvFail "qqq" ["fever"]
    "embedding service down" (by decide) (by decide) (by decide) (by decide) rfl⟩

/-- Claim C7 (counterexample): on the non-alias token zzy with an empty
vocabulary, normalize_symptom raises (the unpacking of extractOne's None in
fuzzy_match) instead of yielding None. -/
theorem C7_counterexample :
    List.lookup (pyStrip (pyLower "zzy")) SYMPTOM_MAP = none ∧
    normalize_symptom score0 benvTriv "zzy" [] = .error fuzzyUnpackMsg ∧
    (Except.error fuzzyUnpackMsg : Except String (Option String)) ≠ .ok none :=
  ⟨by decide, rfl, fun h => Except.noConfusion h⟩

/-- Claim C7 (amended): for every input whose lower-cased, trimmed form is
not an AliasMap key, an empty vocabulary makes normalize_symptom raise the
unpacking TypeError in the fuzzy layer, rather than yield None. -/
theorem C7_amended_empty_vocab_raises {a : Type} (score : String → String → Rat)
    (benv : BertEnv a) (symptom : String)
    (halias : List.lookup (pyStrip (pyLower symptom)) SYMPTOM_MAP = none) :
    normalize_symptom score benv symptom [] = .error fuzzyUnpackMsg := by
  simp only [normalize_symptom]
  rw [halias]
  simp [fuzzy_match, extractOne]

/-- Claim C7 (amended, witness): the empty-vocabulary statement at token zzx. -/
theorem C7_witness :
    List.lookup (pyStrip (pyLower "zzx")) SYMPTOM_MAP = none ∧
    normalize_symptom score0 benvTriv "zzx" [] = .error fuzzyUnpackMsg :=
  ⟨by decide, C7_amended_empty_vocab_raises score0 benvTriv "zzx" (by decide)⟩

/-- Claim C8: when the initial vocabulary fetch fails, main aborts the
session with the no-symptoms error before any normalization, and that abort
outcome is distinct from every completed run. -/
theorem C8_vocab_fetch_failure_aborts {a : Type} (e k : String)
    (score : String → String → Rat) (benv : BertEnv a)
    (dstore : List String → Nat → Except String (List MatchRecord))
    (userInput : String) (hk : k ≠ "") :
    run_main (some k) (.error e) score benv dstore userInput = .errNoSymptoms ∧
    (∀ valid invalid found,
      SessionOutcome.errNoSymptoms ≠ SessionOutcome.completed valid invalid found) := by
  constructor
  · simp only [run_main]
    rw [if_neg (show ¬ ((some k).getD "" = "") from hk)]
    rfl
  · intro valid invalid found h
    exact SessionOutcome.noConfusion h

/-- Claim C8 (witness): the abort statement at a concrete failing fetch,
api key, stores and user input. -/
theorem C8_witness :
    ("sk-test" : String) ≠ "" ∧
    run_main (some "sk-test") (.error "connection refused") score0 benvTriv
      (failingStore "down") "fever, cough" = .errNoSymptoms :=
  ⟨by decide,
    (C8_vocab_fetch_failure_aborts "connection refused" "sk-test" score0 benvTriv
      (failingStore "down") "fever, cough" (by decide)).1⟩

/-- Claim C9: for every graph and every top_n, the disease query applied to
an empty symptom list returns the empty list, with nothing logged (no error). -/
theorem C9_empty_symptom_set (g : List (String × List String)) (top_n : Nat) :
    get_diseases_from_neo4j (neo4jStore g) [] top_n = ([], none) := by
  have hfil : ∀ (rows : List MatchRecord), (∀ r ∈ rows, r.matched_symptoms = []) →
      rows.filter (fun r => !r.matched_symptoms.isEmpty) = [] := by
    intro rows hrows
    refine List.filter_eq_nil_iff.mpr ?_
    intro r hr
    simp [hrows r hr]
  simp only [get_diseases_from_neo4j, neo4jStore, cypher_disease_query, List.map_nil]
  rw [hfil]
  · simp
  · intro r hr
    obtain ⟨d, hd, hEq⟩ := List.mem_map.mp hr
    rw [← hEq]
    simp [matchedOf]

/-- Claim C10: in every record returned by the disease query over a graph
whose per-disease symptom lists are duplicate-free, match_count equals the
length of the matched-symptom subset, and that subset is duplicate-free (so
the count is the number of distinct query symptoms connected to the disease). -/
theorem C10_match_count_is_size (g : List (String × List String))
    (user_symptoms : List String) (top_n : Nat)
    (hnd : ∀ d ∈ g, d.2.Nodup) :
    ∀ r ∈ (get_diseases_from_neo4j (neo4jStore g) user_symptoms top_n).1,
      r.match_count = r.matched_symptoms.length ∧ r.matched_symptoms.Nodup := by
  intro r hr
  simp only [get_diseases_from_neo4j, neo4jStore, cypher_disease_query] at hr
  have hr2 := (List.mem_insertionSort rdesc).mp ((List.take_sublist _ _).mem hr)
  have hr3 := (List.mem_filter.mp hr2).1
  obtain ⟨d, hd, hEq⟩ := List.mem_map.mp hr3
  subst hEq
  exact ⟨rfl, List.Nodup.filter _ (hnd d hd)⟩

/-- Claim C10 (witness): the count statement at the Flu record returned by
the query over gFlu for fever and cough. -/
theorem C10_witness :
    (∀ d ∈ gFlu, d.2.Nodup) ∧
    (rFlu.match_count = rFlu.matched_symptoms.length ∧ rFlu.matched_symptoms.Nodup) :=
  ⟨by decide,
    C10_match_count_is_size gFlu ["fever", "cough"] 5 (by decide) rFlu (by decide)⟩

end SymptomAgent
